import Mathlib

/-!
Verification of `syzygy/agent/asan/asan_system_interceptor_parser.py`:
a generator that scans SAL-annotated C declarations and emits ASan
interceptor implementations, instrumentation-filter entries and DEF-file
export lines.

The development shallowly embeds the script:
* the argument tokenizer `_ARG_TOKENS_RE` is embedded as an executable
  backtracking matcher over `List Char` that follows the Python `re`
  backtracking order (greedy quantifiers try the longest repetition
  first, alternatives are tried left to right, `finditer` scans from
  every position and yields non-overlapping matches);
* the tag tables, the string templates and the body of
  `GenerateFunctionInterceptor` are translated line by line, with the
  output files and the de-duplication set carried in an explicit state
  record, and a Python exception modelled as an error component of the
  result;
* the CSV filter loading (`csv.DictReader` with `skipinitialspace=True`)
  and the output-file lifecycle of `ASanSystemInterceptorGenerator`
  are embedded over an association-list file system.
-/

namespace AsanInterceptor

/-- One structured argument token produced by `_ARG_TOKENS_RE`: named
groups `SAL_tag`, `SAL_tag_args` (absent when the tag carries no
parenthesized arguments), `var_type` and `var_name`. -/
structure ArgToken where
  sal_tag : String
  sal_tag_args : Option String
  var_type : String
  var_name : String
deriving DecidableEq, Repr

/-- Python `\w` on ASCII input: letters, digits and the underscore. -/
def isWordChar (c : Char) : Bool :=
  c.isAlphanum || c == '_'

/-- Python `\s` on ASCII input. -/
def isSpaceChar (c : Char) : Bool :=
  c == ' ' || c == '\t' || c == '\n' || c == '\r' || c == '\x0b' || c == '\x0c'

/-- `[a-zA-Z_]` , the characters allowed after the first letter of the
`var_type` group. -/
def isTypeChar (c : Char) : Bool :=
  c.isAlpha || c == '_'

/-- All ways for a greedy character-class repetition `p{lo,}` to consume a
prefix of `s`, as the list of remaining suffixes, longest consumption
first (the Python backtracking order for a greedy quantifier). -/
def clsRests (p : Char → Bool) (lo : Nat) (s : List Char) : List (List Char) :=
  let m := (s.takeWhile p).length
  if m < lo then []
  else (List.range (m + 1 - lo)).map (fun i => s.drop (m - i))

/-- Alternatives for the group `(?P<SAL_tag>(\_\w+\_))`: an underscore, one
or more word characters, a final underscore; the capture is returned with
each remaining suffix, longest tag first. -/
def salTagAlts (s : List Char) : List (String × List Char) :=
  match s with
  | '_' :: rest =>
    let m := (rest.takeWhile isWordChar).length
    (List.range m).filterMap (fun i =>
      let k := m - i
      match rest.drop k with
      | '_' :: r2 => some (String.mk ('_' :: (rest.take k ++ ['_'])), r2)
      | _ => none)
  | _ => []

/-- Alternatives for `(\((?P<SAL_tag_args>[^\)]*)\))?`: since the inner
class excludes `)`, a present group must stop at the first closing
parenthesis; the absent alternative is tried afterwards (greedy option). -/
def tagArgsAlts (s : List Char) : List (Option String × List Char) :=
  (match s with
   | '(' :: rest =>
     let inner := rest.takeWhile (fun c => !(c == ')'))
     (match rest.drop inner.length with
      | ')' :: r2 => [(some (String.mk inner), r2)]
      | _ => [])
   | _ => []) ++ [(none, s)]

/-- Remaining suffixes after one iteration of the secondary-annotation
body `\_[^ ]+\s+`, in backtracking order. -/
def secTagBodyRests (s : List Char) : List (List Char) :=
  match s with
  | '_' :: rest =>
    ((clsRests (fun c => !(c == ' ')) 1 rest).map (fun r1 => clsRests isSpaceChar 1 r1)).flatten
  | _ => []

/-- Remaining suffixes after the greedy star `((\_[^ ]+\s+)*)?`, more
iterations first; each iteration consumes at least one character, so fuel
equal to the length of the input is enough. -/
def secStarRests : Nat → List Char → List (List Char)
  | 0, s => [s]
  | fuel + 1, s =>
    (((secTagBodyRests s).map (fun r =>
        if r.length < s.length then secStarRests fuel r else [])).flatten) ++ [s]

/-- Case-insensitive literal match (the literal is given in upper case),
for `re.IGNORECASE` on `CONST|FAR`. -/
def matchLitCI : List Char → List Char → Option (List Char)
  | [], s => some s
  | _ :: _, [] => none
  | c :: cs, x :: xs => if x.toUpper == c then matchLitCI cs xs else none

/-- Remaining suffixes after the type core `[a-zA-Z][a-zA-Z_]+`. -/
def typeCoreRests (s : List Char) : List (List Char) :=
  match s with
  | c :: rest => if c.isAlpha then clsRests isTypeChar 1 rest else []
  | [] => []

/-- Alternatives for `(?P<var_type>(((CONST|FAR)\s*)?[a-zA-Z][a-zA-Z_]+))`
with the capture (prefix included) attached; the present prefix is tried
before the absent one, `CONST` before `FAR`. -/
def varTypeAlts (s : List Char) : List (String × List Char) :=
  let withPre : List (List Char) :=
    (match matchLitCI ['C', 'O', 'N', 'S', 'T'] s with
     | some r1 => ((clsRests isSpaceChar 0 r1).map typeCoreRests).flatten
     | none => []) ++
    (match matchLitCI ['F', 'A', 'R'] s with
     | some r1 => ((clsRests isSpaceChar 0 r1).map typeCoreRests).flatten
     | none => [])
  (withPre ++ typeCoreRests s).map
    (fun r => (String.mk (s.take (s.length - r.length)), r))

/-- Alternatives for `(\*)?`: present first. -/
def starOptRests (s : List Char) : List (List Char) :=
  (match s with | '*' :: r => [r] | _ => []) ++ [s]

/-- Alternatives for `(\*\s*)?`: present first, with the inner `\s*`
greedy. -/
def starSpOptRests (s : List Char) : List (List Char) :=
  (match s with | '*' :: r => clsRests isSpaceChar 0 r | _ => []) ++ [s]

/-- Alternatives for `(?P<var_name>\w+)` with the capture attached,
longest first. -/
def wordAlts (s : List Char) : List (String × List Char) :=
  let m := (s.takeWhile isWordChar).length
  (List.range m).map (fun i =>
    let k := m - i
    (String.mk (s.take k), s.drop k))

/-- Consume an optional trailing `(\[\])?`. -/
def arrSuffixRest (s : List Char) : List Char :=
  match s with
  | '[' :: ']' :: r => r
  | _ => s

/-- Attempt to match `_ARG_TOKENS_RE` at the start of `s`; on success
return the captured token and the unconsumed suffix.  The nested
`findSome?` calls realize the backtracking search: the first overall
success, in Python backtracking order, wins. -/
def matchTokenAt (s : List Char) : Option (ArgToken × List Char) :=
  (salTagAlts s).findSome? fun ts =>
  (tagArgsAlts ts.2).findSome? fun as =>
  (clsRests isSpaceChar 1 as.2).findSome? fun s3 =>
  (secStarRests s3.length s3).findSome? fun s4 =>
  (varTypeAlts s4).findSome? fun vs =>
  (starOptRests vs.2).findSome? fun s6 =>
  (clsRests isSpaceChar 1 s6).findSome? fun s7 =>
  (starSpOptRests s7).findSome? fun s8 =>
  (wordAlts s8).findSome? fun ns =>
  some ({ sal_tag := ts.1, sal_tag_args := as.1,
          var_type := vs.1, var_name := ns.1 }, arrSuffixRest ns.2)

/-- `finditer` scan: try to match at every position, left to right,
continuing after the end of each (necessarily nonempty) match. -/
def findIterAux : Nat → List Char → List ArgToken
  | 0, _ => []
  | _, [] => []
  | fuel + 1, c :: rest =>
    match matchTokenAt (c :: rest) with
    | some (tok, r) => tok :: findIterAux fuel r
    | none => findIterAux fuel rest

/-- The token sequence `_ARG_TOKENS_RE.finditer(function_arguments)`. -/
def tokenize (s : String) : List ArgToken :=
  findIterAux (s.data.length + 1) s.data

/-- The dictionary `_TAGS_TO_INTERCEPT`, mapping a SAL tag to the access
mode of the buffer it annotates. -/
def TAGS_TO_INTERCEPT : List (String × String) :=
  [("_In_reads_bytes_opt_", "READ"),
   ("_Out_writes_to_opt_", "WRITE"),
   ("_Out_writes_bytes_opt_", "WRITE"),
   ("_Out_writes_bytes_to_opt_", "WRITE")]

/-- The frozen set `_TAGS_TO_CHECK_POSTCALL`. -/
def TAGS_TO_CHECK_POSTCALL : List String :=
  ["_Out_", "_Out_opt_"]

/-- The frozen set `_TAGS_TO_CHECK_PRECALL`, built in the source as the
post-call list extended with the two `Inout` tags. -/
def TAGS_TO_CHECK_PRECALL : List String :=
  TAGS_TO_CHECK_POSTCALL ++ ["_Inout_", "_Inout_opt_"]

/-- Key membership in a Python dictionary modelled as an association
list. -/
def dictContains (d : List (String × String)) (k : String) : Bool :=
  d.any (fun p => p.1 == k)

/-- Dictionary lookup (the callers in the source only index keys they
have checked for membership). -/
def dictGet (d : List (String × String)) (k : String) : String :=
  ((d.find? (fun p => p.1 == k)).map (fun p => p.2)).getD ""

/-- Python `needle in hay` substring test. -/
def pyInChars (needle : List Char) : List Char → Bool
  | [] => needle.isPrefixOf []
  | c :: rest => needle.isPrefixOf (c :: rest) || pyInChars needle rest

/-- Python `needle in hay` on strings, as used by
`'In' in m_iter.group('SAL_tag')`. -/
def pyIn (needle hay : String) : Bool :=
  pyInChars needle.data hay.data

/-- Python `str.split(sep)` for a one-character separator. -/
def pySplit (sep : Char) : List Char → List (List Char)
  | [] => [[]]
  | c :: rest =>
    if c == sep then [] :: pySplit sep rest
    else
      match pySplit sep rest with
      | f :: fs => (c :: f) :: fs
      | [] => [[c]]

/-- `param_checks_template` rendered at its two placeholders. -/
def param_checks_template (param_to_check access_type : String) : String :=
  "\n  if (" ++ param_to_check ++ " != NULL) \x7b\n    TestMemoryRange(reinterpret_cast<const uint8*>("
    ++ param_to_check ++ "),\n                    sizeof(*" ++ param_to_check
    ++ "),\n                    HeapProxy::ASAN_" ++ access_type ++ "_ACCESS);\n  \x7d\n"

/-- `interceptor_template` rendered at its placeholders (the backslash at
the end of the first template line is a Python line splice, so the header
of the generated function sits on a single line). -/
def interceptor_template (ret_type function_name function_arguments buffer_to_check
    buffer_size access_type function_param_names param_checks_precall
    param_checks_postcall : String) : String :=
  "\n" ++ ret_type ++ " WINAPI asan_" ++ function_name ++ "(" ++ function_arguments
    ++ ") \x7b\n  if (" ++ buffer_to_check
    ++ " != NULL) \x7b\n    TestMemoryRange(reinterpret_cast<const uint8*>(" ++ buffer_to_check
    ++ "),\n                    " ++ buffer_size
    ++ ",\n                    HeapProxy::ASAN_" ++ access_type ++ "_ACCESS);\n  \x7d\n  "
    ++ param_checks_precall ++ "\n\n  " ++ ret_type ++ " ret = ::" ++ function_name
    ++ "(" ++ function_param_names
    ++ ");\n\n  if (interceptor_tail_callback != NULL)\n    (*interceptor_tail_callback)();\n\n  "
    ++ param_checks_postcall ++ "\n  if (" ++ buffer_to_check
    ++ " != NULL) \x7b\n    TestMemoryRange(reinterpret_cast<const uint8*>(" ++ buffer_to_check
    ++ "),\n                    " ++ buffer_size
    ++ ",\n                    HeapProxy::ASAN_" ++ access_type
    ++ "_ACCESS);\n  \x7d\n\n  return ret;\n\x7d\n"

/-- `instrumentation_filter_entry_template` rendered at its two
placeholders. -/
def instrumentation_filter_entry_template (function_name module_name : String) : String :=
  "\n\x7b \"" ++ function_name ++ "\", \"NOT SET\", \"" ++ module_name
    ++ "\", NULL, true \x7d,\n"

/-- The loop of `GenerateFunctionInterceptor` over the argument tokens:
it accumulates the comma-joined pass-through name list and the rendered
pre-call and post-call check strings. -/
def buildChecksLoop : List ArgToken → String × String × String → String × String × String
  | [], acc => acc
  | t :: ts, (names, pre, post) =>
    let names1 := if names == "" then t.var_name else names ++ ", " ++ t.var_name
    if TAGS_TO_CHECK_PRECALL.contains t.sal_tag then
      let str := param_checks_template t.var_name
        (if pyIn "In" t.sal_tag then "READ" else "WRITE")
      buildChecksLoop ts (names1, pre ++ str,
        if TAGS_TO_CHECK_POSTCALL.contains t.sal_tag then post ++ str else post)
    else
      buildChecksLoop ts (names1, pre, post)

/-- The mutable state of one `ASanSystemInterceptorGenerator` run: the
loaded filter dictionary, the de-duplication set
`_intercepted_functions`, and the accumulated contents of the three
output files. -/
structure GenState where
  filter : List (String × String)
  intercepted : List (String × String)
  implFile : String
  instrumentationFilterFile : String
  defFile : String
deriving DecidableEq, Repr

/-- `GenerateFunctionInterceptor`.  The second component models a Python
exception: `m_buffer_size_arg.group('SAL_tag_args')` is `None` when the
matched tag carries no parenthesized arguments, and calling
`.split(',')` on `None` raises `AttributeError` after the function was
added to the de-duplication set but before anything is written. -/
def GenerateFunctionInterceptor (st : GenState)
    (function_name return_type function_arguments : String) :
    GenState × Option String :=
  if !(dictContains st.filter function_name) then (st, none)
  else if st.intercepted.contains (function_name, function_arguments) then (st, none)
  else
    match (tokenize function_arguments).find?
        (fun t => dictContains TAGS_TO_INTERCEPT t.sal_tag) with
    | none => (st, none)
    | some bufTok =>
      let st1 := { st with intercepted := (function_name, function_arguments) :: st.intercepted }
      let nps := buildChecksLoop (tokenize function_arguments) ("", "", "")
      match bufTok.sal_tag_args with
      | none => (st1, some "AttributeError: NoneType object has no attribute split")
      | some args =>
        let buffer_size := String.mk ((pySplit ',' args.data).headD [])
        ({ st1 with
            implFile := st1.implFile ++ interceptor_template return_type function_name
              function_arguments bufTok.var_name buffer_size
              (dictGet TAGS_TO_INTERCEPT bufTok.sal_tag) nps.1 nps.2.1 nps.2.2,
            instrumentationFilterFile := st1.instrumentationFilterFile ++
              instrumentation_filter_entry_template function_name
                (dictGet st.filter function_name),
            defFile := st1.defFile ++ "asan_" ++ function_name ++ "\n" }, none)

/-- Field splitting of one CSV row as done by the `csv` module with
`skipinitialspace=True` on unquoted input: fields are separated by
commas, and space characters (only `' '`, not tabs) at the start of a
field are skipped; trailing whitespace is kept.  The flag argument is
true while the parser sits at the start of a field. -/
def splitFieldsAux : List Char → List Char → Bool → List (List Char)
  | [], acc, _ => [acc.reverse]
  | c :: rest, acc, skipping =>
    if c == ',' then acc.reverse :: splitFieldsAux rest [] true
    else if skipping && c == ' ' then splitFieldsAux rest acc true
    else splitFieldsAux rest (c :: acc) false

/-- The fields of one CSV row. -/
def splitFields (row : List Char) : List (List Char) :=
  splitFieldsAux row [] true

/-- Insertion into a Python dictionary modelled as an association list:
a later binding for the same key overwrites the earlier one. -/
def dictInsert (d : List (String × String)) (k v : String) : List (String × String) :=
  if d.any (fun p => p.1 == k) then
    d.map (fun p => if p.1 == k then (k, v) else p)
  else d ++ [(k, v)]

/-- The filter-loading loop of `ASanSystemInterceptorGenerator.__init__`:
the first line of the CSV file is the `function,module` header consumed
by `csv.DictReader`, and every following row maps its `function` field
to its `module` field (rows without both fields are not stored as a
complete mapping and are dropped by the model; `DictReader` also skips
blank lines). -/
def loadFilter (content : String) : List (String × String) :=
  ((pySplit '\n' content.data).drop 1).foldl
    (fun d row =>
      match splitFields row with
      | f :: m :: _ => dictInsert d (String.mk f) (String.mk m)
      | _ => d) []

/-- A file system: paths mapped to file contents. -/
abbrev FS := List (String × String)

/-- `os.path.isfile`. -/
def fsExists (fs : FS) (p : String) : Bool :=
  fs.any (fun q => q.1 == p)

/-- Reading a whole file (absent files are irrelevant to the claims and
read as empty). -/
def fsRead (fs : FS) (p : String) : String :=
  (((fs : List (String × String)).find? (fun q => q.1 == p)).map (fun q => q.2)).getD ""

/-- `open(p, mode='w')` followed by writing `c`: the previous content is
discarded, never appended to. -/
def fsWrite : FS → String → String → FS
  | [], p, c => [(p, c)]
  | q :: rest, p, c => if q.1 == p then (p, c) :: rest else q :: fsWrite rest p c

/-- Folding `GenerateFunctionInterceptor` over the declarations found in
the input files, stopping at the first (modelled) exception as Python
would. -/
def processDecls (st : GenState) :
    List (String × String × String) → GenState × Option String
  | [] => (st, none)
  | (n, r, a) :: ds =>
    match GenerateFunctionInterceptor st n r a with
    | (st1, none) => processDecls st1 ds
    | (st1, some e) => (st1, some e)

/-- One whole run of the tool over already-extracted declarations.  As
in `ASanSystemInterceptorGenerator.__init__`: if any of the three output
files exists and the overwrite flag is not set, the run aborts before
opening anything and the file system is untouched; otherwise the three
output files are opened with mode `'w'` (truncating any previous
content), the input DEF file is copied, the filter CSV is loaded, the
declarations are processed and the accumulated output contents are the
final file contents. -/
def runGenerator (fs : FS) (output_base def_path filter_path : String)
    (overwrite : Bool) (decls : List (String × String × String)) : FS :=
  let implF := output_base ++ "_impl.gen"
  let instF := output_base ++ "_instrumentation_filter.gen"
  let defF := output_base ++ ".def.gen"
  if (fsExists fs implF || fsExists fs instF || fsExists fs defF) && !overwrite then fs
  else
    let fs1 := fsWrite (fsWrite (fsWrite fs implF "") instF "") defF ""
    let st0 : GenState :=
      { filter := loadFilter (fsRead fs1 filter_path)
        intercepted := []
        implFile := ""
        instrumentationFilterFile := ""
        defFile := fsRead fs1 def_path }
    let stN := (processDecls st0 decls).1
    fsWrite (fsWrite (fsWrite fs1 implF stN.implFile)
        instF stN.instrumentationFilterFile) defF stN.defFile

/-! ### Helper functions for the statements of the claims -/

/-- Concatenation of a list of strings (the shape in which the
accumulating string concatenations of the generator loop are stated). -/
def strJoin : List String → String
  | [] => ""
  | s :: ss => s ++ strJoin ss

/-- Join a list of names with `", "`, exactly as the loop of
`GenerateFunctionInterceptor` does for the pass-through argument list. -/
def pyCommaJoin : List String → String
  | [] => ""
  | n :: ns => n ++ strJoin (ns.map (fun x => ", " ++ x))

/-- The pre-call check fragment contributed by one argument token, if
any: tokens whose tag is in `_TAGS_TO_CHECK_PRECALL` get a
`sizeof(*name)` check whose access mode is `READ` exactly when the tag
contains the substring `In`. -/
def preFrag (t : ArgToken) : Option String :=
  if TAGS_TO_CHECK_PRECALL.contains t.sal_tag then
    some (param_checks_template t.var_name
      (if pyIn "In" t.sal_tag then "READ" else "WRITE"))
  else none

/-- The post-call check fragment contributed by one argument token, if
any: the source only schedules a post-call check from inside the
pre-call branch, re-using the identical fragment. -/
def postFrag (t : ArgToken) : Option String :=
  if TAGS_TO_CHECK_PRECALL.contains t.sal_tag then
    (if TAGS_TO_CHECK_POSTCALL.contains t.sal_tag then
      some (param_checks_template t.var_name
        (if pyIn "In" t.sal_tag then "READ" else "WRITE"))
     else none)
  else none

/-- The generator state of a run that has just been initialised: empty
de-duplication set, empty output buffers, DEF output seeded with the
copied input DEF file, filter loaded from the filter CSV — reading both
inputs from the given file system. -/
def freshRunState (fs : FS) (def_path filter_path : String) : GenState :=
  { filter := loadFilter (fsRead fs filter_path)
    intercepted := []
    implFile := ""
    instrumentationFilterFile := ""
    defFile := fsRead fs def_path }

/-- The raw parameter text of the `WriteFile` declaration used by the
spec's end-to-end scenario. -/
def wfArgs : String :=
  "_In_ HANDLE hFile, _In_reads_bytes_opt_(nNumberOfBytesToWrite) LPCVOID lpBuffer, _In_ DWORD nNumberOfBytesToWrite, _Out_opt_ LPDWORD lpNumberOfBytesWritten, _Inout_opt_ LPOVERLAPPED lpOverlapped"

/-- A fresh generator state whose filter maps `WriteFile` to
`kernel32.dll`. -/
def stWF : GenState :=
  ⟨[("WriteFile", "kernel32.dll")], [], "", "", ""⟩

/-- A declaration with one tagged argument and one argument without any
SAL tag (`DWORD sz`). -/
def uArgs : String := "_In_reads_bytes_opt_(sz) LPCVOID buf, DWORD sz"

/-- A fresh generator state whose filter maps `Foo` to `foo.dll`. -/
def stU : GenState :=
  ⟨[("Foo", "foo.dll")], [], "", "", ""⟩

/-! ### Lemmas about the generator loop -/

theorem loop_pre_eq (toks : List ArgToken) :
    ∀ names pre post,
      (buildChecksLoop toks (names, pre, post)).2.1 = pre ++ strJoin (toks.filterMap preFrag) := by
  induction toks with
  | nil => intro names pre post; simp [buildChecksLoop, strJoin]
  | cons t ts ih =>
    intro names pre post
    simp only [buildChecksLoop]
    split
    case isTrue h =>
      have hf : preFrag t = some (param_checks_template t.var_name
          (if pyIn "In" t.sal_tag then "READ" else "WRITE")) := by
        simp only [preFrag]
        rw [if_pos h]
      rw [List.filterMap_cons_some hf, ih]
      simp [strJoin, String.append_assoc]
    case isFalse h =>
      have hf : preFrag t = none := by
        simp only [preFrag]
        rw [if_neg h]
      rw [List.filterMap_cons_none hf, ih]

theorem loop_post_eq (toks : List ArgToken) :
    ∀ names pre post,
      (buildChecksLoop toks (names, pre, post)).2.2 = post ++ strJoin (toks.filterMap postFrag) := by
  induction toks with
  | nil => intro names pre post; simp [buildChecksLoop, strJoin]
  | cons t ts ih =>
    intro names pre post
    simp only [buildChecksLoop]
    split
    case isTrue h =>
      rw [ih]
      by_cases h2 : TAGS_TO_CHECK_POSTCALL.contains t.sal_tag = true
      · have hf : postFrag t = some (param_checks_template t.var_name
            (if pyIn "In" t.sal_tag then "READ" else "WRITE")) := by
          simp only [postFrag]
          rw [if_pos h, if_pos h2]
        rw [List.filterMap_cons_some hf, if_pos h2]
        simp [strJoin, String.append_assoc]
      · have hf : postFrag t = none := by
          simp only [postFrag]
          rw [if_pos h, if_neg h2]
        rw [List.filterMap_cons_none hf, if_neg h2]
    case isFalse h =>
      have hf : postFrag t = none := by
        simp only [postFrag]
        rw [if_neg h]
      rw [List.filterMap_cons_none hf, ih]

theorem string_ne_empty_of_length_pos {s : String} (h : 0 < s.length) : s ≠ "" := by
  intro hc
  rw [hc] at h
  simp at h

theorem loop_names_go (toks : List ArgToken) :
    ∀ names pre post, names ≠ "" →
      (buildChecksLoop toks (names, pre, post)).1 =
        names ++ strJoin (toks.map (fun t => ", " ++ t.var_name)) := by
  induction toks with
  | nil => intro names pre post _; simp [buildChecksLoop, strJoin]
  | cons t ts ih =>
    intro names pre post hne
    have hb : ¬ ((names == "") = true) := by
      rw [beq_eq_false_iff_ne.mpr hne]
      simp
    have h0 : 0 < names.length := by
      rcases Nat.eq_zero_or_pos names.length with hz | hp
      · exact absurd (String.ext (List.eq_nil_of_length_eq_zero hz)) hne
      · exact hp
    have hne2 : (names ++ ", " ++ t.var_name) ≠ "" := by
      apply string_ne_empty_of_length_pos
      rw [String.length_append, String.length_append]
      have h2 : (", " : String).length = 2 := rfl
      omega
    simp only [buildChecksLoop]
    rw [if_neg hb]
    split
    case isTrue h =>
      rw [ih _ _ _ hne2]
      simp [strJoin, String.append_assoc]
    case isFalse h =>
      rw [ih _ _ _ hne2]
      simp [strJoin, String.append_assoc]

theorem loop_names_eq (toks : List ArgToken)
    (hn : ∀ t ∈ toks, t.var_name ≠ "") (pre post : String) :
    (buildChecksLoop toks ("", pre, post)).1 = pyCommaJoin (toks.map (fun t => t.var_name)) := by
  cases toks with
  | nil => simp [buildChecksLoop, pyCommaJoin]
  | cons t ts =>
    have hne : t.var_name ≠ "" := hn t (by simp)
    have hmm : (ts.map (fun x => x.var_name)).map (fun x => ", " ++ x) =
        ts.map (fun x => ", " ++ x.var_name) := by
      rw [List.map_map]; rfl
    simp only [buildChecksLoop]
    split
    case isTrue h =>
      rw [if_pos (by decide : (("" : String) == "") = true)]
      simp only [pyCommaJoin, List.map_cons, hmm]
      exact loop_names_go ts _ _ _ hne
    case isFalse h =>
      rw [if_pos (by decide : (("" : String) == "") = true)]
      simp only [pyCommaJoin, List.map_cons, hmm]
      exact loop_names_go ts _ _ _ hne

/-! ### The tokenizer never produces an empty variable name -/

theorem mem_wordAlts_ne_empty {s : List Char} {pr : String × List Char}
    (h : pr ∈ wordAlts s) : pr.1 ≠ "" := by
  unfold wordAlts at h
  simp only [List.mem_map, List.mem_range] at h
  obtain ⟨i, hi, heq⟩ := h
  subst heq
  have hm : (s.takeWhile isWordChar).length ≤ s.length :=
    (List.takeWhile_sublist _).length_le
  apply string_ne_empty_of_length_pos
  show 0 < (String.mk (s.take ((s.takeWhile isWordChar).length - i))).length
  have : (String.mk (s.take ((s.takeWhile isWordChar).length - i))).length =
      (s.take ((s.takeWhile isWordChar).length - i)).length := rfl
  rw [this, List.length_take]
  omega

theorem matchTokenAt_var_name_ne {s : List Char} {tok : ArgToken} {r : List Char}
    (h : matchTokenAt s = some (tok, r)) : tok.var_name ≠ "" := by
  unfold matchTokenAt at h
  obtain ⟨ts, _, h⟩ := List.exists_of_findSome?_eq_some h
  obtain ⟨as, _, h⟩ := List.exists_of_findSome?_eq_some h
  obtain ⟨s3, _, h⟩ := List.exists_of_findSome?_eq_some h
  obtain ⟨s4, _, h⟩ := List.exists_of_findSome?_eq_some h
  obtain ⟨vs, _, h⟩ := List.exists_of_findSome?_eq_some h
  obtain ⟨s6, _, h⟩ := List.exists_of_findSome?_eq_some h
  obtain ⟨s7, _, h⟩ := List.exists_of_findSome?_eq_some h
  obtain ⟨s8, _, h⟩ := List.exists_of_findSome?_eq_some h
  obtain ⟨ns, hns, h⟩ := List.exists_of_findSome?_eq_some h
  cases h
  exact mem_wordAlts_ne_empty hns

theorem findIterAux_var_name_ne :
    ∀ (fuel : Nat) (s : List Char) (t : ArgToken), t ∈ findIterAux fuel s → t.var_name ≠ "" := by
  intro fuel
  induction fuel with
  | zero => intro s t ht; simp [findIterAux] at ht
  | succ n ih =>
    intro s t ht
    cases s with
    | nil => simp [findIterAux] at ht
    | cons c rest =>
      rw [findIterAux] at ht
      cases hm : matchTokenAt (c :: rest) with
      | none => rw [hm] at ht; exact ih rest t ht
      | some pr =>
        rw [hm] at ht
        rcases pr with ⟨tok, r⟩
        rcases List.mem_cons.mp ht with h | h
        · subst h; exact matchTokenAt_var_name_ne hm
        · exact ih r t h

theorem tokenize_var_name_ne (a : String) :
    ∀ t ∈ tokenize a, t.var_name ≠ "" :=
  fun t ht => findIterAux_var_name_ne _ _ t ht

/-! ### Tag-table facts -/

theorem intercept_tag_not_precall (s : String)
    (h : dictContains TAGS_TO_INTERCEPT s = true) :
    TAGS_TO_CHECK_PRECALL.contains s = false := by
  simp only [dictContains, TAGS_TO_INTERCEPT, List.any_eq_true, List.mem_cons,
    List.not_mem_nil, or_false, beq_iff_eq] at h
  obtain ⟨p, hp, heq⟩ := h
  rcases hp with hp | hp | hp | hp <;> subst hp <;> subst heq <;> decide

theorem filterMap_sublist_mono {α β : Type} {f g : α → Option β}
    (h : ∀ x y, f x = some y → g x = some y) :
    ∀ l : List α, (l.filterMap f).Sublist (l.filterMap g) := by
  intro l
  induction l with
  | nil => simp
  | cons x l ih =>
    cases hf : f x with
    | some y =>
      rw [List.filterMap_cons_some hf, List.filterMap_cons_some (h x y hf)]
      exact ih.cons₂ y
    | none =>
      rw [List.filterMap_cons_none hf]
      cases hg : g x with
      | none => rw [List.filterMap_cons_none hg]; exact ih
      | some z => rw [List.filterMap_cons_some hg]; exact ih.cons z

/-! ### File-system lemmas -/

theorem fsRead_fsWrite_same (p c : String) :
    ∀ fs : FS, fsRead (fsWrite fs p c) p = c := by
  intro fs
  induction fs with
  | nil => simp [fsWrite, fsRead]
  | cons q rest ih =>
    by_cases h : q.1 == p
    · simp [fsWrite, h, fsRead]
    · simp only [fsWrite, h, Bool.false_eq_true, if_false]
      simp only [fsRead, List.find?, h]
      exact ih

theorem fsRead_fsWrite_ne (p c q : String) (hne : q ≠ p) :
    ∀ fs : FS, fsRead (fsWrite fs p c) q = fsRead fs q := by
  intro fs
  have hpq : (p == q) = false := beq_eq_false_iff_ne.mpr (fun e => hne e.symm)
  induction fs with
  | nil => simp [fsWrite, fsRead, List.find?, hpq]
  | cons a rest ih =>
    by_cases h : a.1 == p
    · have ha : (a.1 == q) = false := by
        have : a.1 = p := beq_iff_eq.mp h
        rw [this]; exact hpq
      simp only [fsWrite, h, if_true, fsRead, List.find?, hpq, ha]
    · simp only [fsWrite, h, Bool.false_eq_true, if_false]
      by_cases ha : a.1 == q
      · simp [fsRead, List.find?, ha]
      · simp only [fsRead, List.find?, ha] at ih ⊢
        exact ih

theorem output_paths_distinct (base : String) :
    base ++ "_impl.gen" ≠ base ++ "_instrumentation_filter.gen" ∧
    base ++ "_impl.gen" ≠ base ++ ".def.gen" ∧
    base ++ "_instrumentation_filter.gen" ≠ base ++ ".def.gen" := by
  refine ⟨?_, ?_, ?_⟩ <;>
    · intro h
      have h2 := congrArg String.data h
      rw [String.data_append, String.data_append] at h2
      have h3 := List.append_cancel_left h2
      exact absurd h3 (by decide)

/-! ### Case characterization of `GenerateFunctionInterceptor` -/

theorem generate_not_in_filter (st : GenState) (n r a : String)
    (h1 : dictContains st.filter n = false) :
    GenerateFunctionInterceptor st n r a = (st, none) := by
  simp only [GenerateFunctionInterceptor, h1, Bool.not_false, if_true]

theorem generate_dup (st : GenState) (n r a : String)
    (h1 : dictContains st.filter n = true)
    (h2 : st.intercepted.contains (n, a) = true) :
    GenerateFunctionInterceptor st n r a = (st, none) := by
  simp only [GenerateFunctionInterceptor, h1, h2, Bool.not_true, Bool.false_eq_true,
    if_false, if_true]

theorem generate_no_tag (st : GenState) (n r a : String)
    (h1 : dictContains st.filter n = true)
    (h2 : st.intercepted.contains (n, a) = false)
    (h3 : (tokenize a).find? (fun x => dictContains TAGS_TO_INTERCEPT x.sal_tag) = none) :
    GenerateFunctionInterceptor st n r a = (st, none) := by
  simp only [GenerateFunctionInterceptor, h1, h2, h3, Bool.not_true, Bool.false_eq_true,
    if_false]

theorem generate_error (st : GenState) (n r a : String) (t : ArgToken)
    (h1 : dictContains st.filter n = true)
    (h2 : st.intercepted.contains (n, a) = false)
    (h3 : (tokenize a).find? (fun x => dictContains TAGS_TO_INTERCEPT x.sal_tag) = some t)
    (h4 : t.sal_tag_args = none) :
    GenerateFunctionInterceptor st n r a =
      ({ st with intercepted := (n, a) :: st.intercepted },
       some "AttributeError: NoneType object has no attribute split") := by
  simp only [GenerateFunctionInterceptor, h1, h2, h3, h4, Bool.not_true, Bool.false_eq_true,
    if_false]

theorem generate_success (st : GenState) (n r a : String) (t : ArgToken) (args : String)
    (h1 : dictContains st.filter n = true)
    (h2 : st.intercepted.contains (n, a) = false)
    (h3 : (tokenize a).find? (fun x => dictContains TAGS_TO_INTERCEPT x.sal_tag) = some t)
    (h4 : t.sal_tag_args = some args) :
    GenerateFunctionInterceptor st n r a =
      ({ st with
          intercepted := (n, a) :: st.intercepted
          implFile := st.implFile ++ interceptor_template r n a t.var_name
            (String.mk ((pySplit ',' args.data).headD []))
            (dictGet TAGS_TO_INTERCEPT t.sal_tag)
            (buildChecksLoop (tokenize a) ("", "", "")).1
            (buildChecksLoop (tokenize a) ("", "", "")).2.1
            (buildChecksLoop (tokenize a) ("", "", "")).2.2
          instrumentationFilterFile := st.instrumentationFilterFile ++
            instrumentation_filter_entry_template n (dictGet st.filter n)
          defFile := st.defFile ++ "asan_" ++ n ++ "\n" }, none) := by
  simp only [GenerateFunctionInterceptor, h1, h2, h3, h4, Bool.not_true, Bool.false_eq_true,
    if_false]

theorem generate_success_fields (st : GenState) (n r a : String) (t : ArgToken) (args : String)
    (h1 : dictContains st.filter n = true)
    (h2 : st.intercepted.contains (n, a) = false)
    (h3 : (tokenize a).find? (fun x => dictContains TAGS_TO_INTERCEPT x.sal_tag) = some t)
    (h4 : t.sal_tag_args = some args) :
    (GenerateFunctionInterceptor st n r a).1.filter = st.filter ∧
    (GenerateFunctionInterceptor st n r a).1.intercepted = (n, a) :: st.intercepted ∧
    (GenerateFunctionInterceptor st n r a).1.implFile =
      st.implFile ++ interceptor_template r n a t.var_name
        (String.mk ((pySplit ',' args.data).headD []))
        (dictGet TAGS_TO_INTERCEPT t.sal_tag)
        (buildChecksLoop (tokenize a) ("", "", "")).1
        (buildChecksLoop (tokenize a) ("", "", "")).2.1
        (buildChecksLoop (tokenize a) ("", "", "")).2.2 ∧
    (GenerateFunctionInterceptor st n r a).1.instrumentationFilterFile =
      st.instrumentationFilterFile ++
        instrumentation_filter_entry_template n (dictGet st.filter n) ∧
    (GenerateFunctionInterceptor st n r a).1.defFile =
      st.defFile ++ "asan_" ++ n ++ "\n" ∧
    (GenerateFunctionInterceptor st n r a).2 = none := by
  rw [generate_success st n r a t args h1 h2 h3 h4]
  exact ⟨rfl, rfl, rfl, rfl, rfl, rfl⟩

/-! ### Claims -/

set_option maxRecDepth 8000 in
set_option maxHeartbeats 1000000 in
/-- Claim C3 (counterexample): the interception machinery is
*not* exception-free: for the declaration
`BOOL WINAPI Foo(_In_reads_bytes_opt_ LPCVOID buf);` — whose first
intercept-eligible token carries no parenthesized tag arguments — the
`SAL_tag_args` group is absent and `None.split(',')` raises an
`AttributeError` (modelled as the error component of the result). -/
theorem generate_raises_on_missing_tag_args :
    (GenerateFunctionInterceptor stU "Foo" "BOOL" "_In_reads_bytes_opt_ LPCVOID buf").2 =
      some "AttributeError: NoneType object has no attribute split" := by
  decide

/-- Claim C3 (amended): `GenerateFunctionInterceptor` produces no
exception — it either emits an interception or silently produces
nothing — provided the token selected as the primary buffer carries
parenthesized tag arguments; when that token has no tag arguments the
call raises (see the counterexample). -/
theorem generate_no_exception_when_tag_args_present :
    ∀ (st : GenState) (n r a : String),
      (∀ t : ArgToken,
        (tokenize a).find? (fun x => dictContains TAGS_TO_INTERCEPT x.sal_tag) = some t →
        t.sal_tag_args ≠ none) →
      (GenerateFunctionInterceptor st n r a).2 = none := by
  intro st n r a hargs
  cases h1 : dictContains st.filter n with
  | false => rw [generate_not_in_filter st n r a h1]
  | true =>
    cases h2 : st.intercepted.contains (n, a) with
    | true => rw [generate_dup st n r a h1 h2]
    | false =>
      cases h3 : (tokenize a).find? (fun x => dictContains TAGS_TO_INTERCEPT x.sal_tag) with
      | none => rw [generate_no_tag st n r a h1 h2 h3]
      | some t =>
        cases h4 : t.sal_tag_args with
        | none => exact absurd h4 (hargs t h3)
        | some s => rw [generate_success st n r a t s h1 h2 h3 h4]

set_option maxRecDepth 8000 in
set_option maxHeartbeats 1000000 in
/-- Witness for the amended claim C3, at the `WriteFile` declaration. -/
theorem generate_no_exception_when_tag_args_present_witness :
    (GenerateFunctionInterceptor stWF "WriteFile" "BOOL" wfArgs).2 = none := by
  apply generate_no_exception_when_tag_args_present
  intro t ht
  have hbuf : (tokenize wfArgs).find? (fun x => dictContains TAGS_TO_INTERCEPT x.sal_tag) =
      some ⟨"_In_reads_bytes_opt_", some "nNumberOfBytesToWrite", "LPCVOID", "lpBuffer"⟩ := by
    decide
  rw [hbuf] at ht
  cases ht
  decide

/-- Claim C4: when a declaration passes the filter and de-duplication
gates and at least one token's tag is in `_TAGS_TO_INTERCEPT`, the
primary buffer is the token found first (leftmost, `List.find?`) among
the eligible ones; its access mode is exactly the table entry for its
tag, and its size expression is the first comma-separated element of the
tag's parenthesized arguments, used verbatim. -/
theorem primary_buffer_first_eligible_token :
    ∀ (st : GenState) (n r a : String) (t : ArgToken) (args : String),
      dictContains st.filter n = true →
      st.intercepted.contains (n, a) = false →
      (tokenize a).find? (fun x => dictContains TAGS_TO_INTERCEPT x.sal_tag) = some t →
      t.sal_tag_args = some args →
      GenerateFunctionInterceptor st n r a =
        ({ st with
            intercepted := (n, a) :: st.intercepted
            implFile := st.implFile ++ interceptor_template r n a t.var_name
              (String.mk ((pySplit ',' args.data).headD []))
              (dictGet TAGS_TO_INTERCEPT t.sal_tag)
              (buildChecksLoop (tokenize a) ("", "", "")).1
              (buildChecksLoop (tokenize a) ("", "", "")).2.1
              (buildChecksLoop (tokenize a) ("", "", "")).2.2
            instrumentationFilterFile := st.instrumentationFilterFile ++
              instrumentation_filter_entry_template n (dictGet st.filter n)
            defFile := st.defFile ++ "asan_" ++ n ++ "\n" }, none) :=
  fun st n r a t args h1 h2 h3 h4 => generate_success st n r a t args h1 h2 h3 h4

set_option maxRecDepth 8000 in
set_option maxHeartbeats 1000000 in
/-- Witness for claim C4, at the `WriteFile` declaration: the primary
buffer is `lpBuffer`, the second argument token, not the first token of
the declaration. -/
theorem primary_buffer_first_eligible_token_witness :
    GenerateFunctionInterceptor stWF "WriteFile" "BOOL" wfArgs =
      ({ stWF with
          intercepted := ("WriteFile", wfArgs) :: stWF.intercepted
          implFile := stWF.implFile ++ interceptor_template "BOOL" "WriteFile" wfArgs "lpBuffer"
            (String.mk ((pySplit ',' "nNumberOfBytesToWrite".data).headD []))
            (dictGet TAGS_TO_INTERCEPT "_In_reads_bytes_opt_")
            (buildChecksLoop (tokenize wfArgs) ("", "", "")).1
            (buildChecksLoop (tokenize wfArgs) ("", "", "")).2.1
            (buildChecksLoop (tokenize wfArgs) ("", "", "")).2.2
          instrumentationFilterFile := stWF.instrumentationFilterFile ++
            instrumentation_filter_entry_template "WriteFile" (dictGet stWF.filter "WriteFile")
          defFile := stWF.defFile ++ "asan_" ++ "WriteFile" ++ "\n" }, none) :=
  primary_buffer_first_eligible_token stWF "WriteFile" "BOOL" wfArgs
    ⟨"_In_reads_bytes_opt_", some "nNumberOfBytesToWrite", "LPCVOID", "lpBuffer"⟩
    "nNumberOfBytesToWrite" (by decide) (by decide) (by decide) (by decide)

/-- Claim C5: a declaration is selected for interception (the
de-duplication set grows) iff the function name is in the filter, the
exact `(name, raw_parameter_text)` pair was not already processed, and
some token's tag is in `_TAGS_TO_INTERCEPT`; and re-processing the same
pair after a successful interception is a silent no-op, so exactly one
interceptor/filter-entry/export triple is emitted per pair. -/
theorem interception_iff_conditions :
    ∀ (st : GenState) (n r a : String),
      (((GenerateFunctionInterceptor st n r a).1.intercepted ≠ st.intercepted) ↔
        (dictContains st.filter n = true ∧ st.intercepted.contains (n, a) = false ∧
          (tokenize a).any (fun t => dictContains TAGS_TO_INTERCEPT t.sal_tag) = true))
      ∧ (∀ st1 : GenState, GenerateFunctionInterceptor st n r a = (st1, none) →
          GenerateFunctionInterceptor st1 n r a = (st1, none)) := by
  intro st n r a
  constructor
  · cases h1 : dictContains st.filter n with
    | false =>
      rw [generate_not_in_filter st n r a h1]
      simp [h1]
    | true =>
      cases h2 : st.intercepted.contains (n, a) with
      | true =>
        rw [generate_dup st n r a h1 h2]
        simp [h2]
      | false =>
        cases h3 : (tokenize a).find? (fun x => dictContains TAGS_TO_INTERCEPT x.sal_tag) with
        | none =>
          rw [generate_no_tag st n r a h1 h2 h3]
          have hany : (tokenize a).any (fun t => dictContains TAGS_TO_INTERCEPT t.sal_tag) = false :=
            List.any_eq_false.mpr (fun x hx => List.find?_eq_none.mp h3 x hx)
          simp [hany]
        | some t =>
          have hp : dictContains TAGS_TO_INTERCEPT t.sal_tag = true :=
            @List.find?_some _ (fun x => dictContains TAGS_TO_INTERCEPT x.sal_tag) t
              (tokenize a) h3
          have hany : (tokenize a).any (fun t => dictContains TAGS_TO_INTERCEPT t.sal_tag) = true :=
            List.any_eq_true.mpr ⟨t, List.mem_of_find?_eq_some h3, hp⟩
          cases h4 : t.sal_tag_args with
          | none =>
            rw [generate_error st n r a t h1 h2 h3 h4]
            exact iff_of_true (List.cons_ne_self _ _) ⟨rfl, rfl, hany⟩
          | some s =>
            rw [generate_success st n r a t s h1 h2 h3 h4]
            exact iff_of_true (List.cons_ne_self _ _) ⟨rfl, rfl, hany⟩
  · intro st1 heq
    cases h1 : dictContains st.filter n with
    | false =>
      rw [generate_not_in_filter st n r a h1] at heq
      obtain ⟨hst, -⟩ := Prod.mk.injEq .. ▸ heq
      subst hst
      exact generate_not_in_filter st n r a h1
    | true =>
      cases h2 : st.intercepted.contains (n, a) with
      | true =>
        rw [generate_dup st n r a h1 h2] at heq
        obtain ⟨hst, -⟩ := Prod.mk.injEq .. ▸ heq
        subst hst
        exact generate_dup st n r a h1 h2
      | false =>
        cases h3 : (tokenize a).find? (fun x => dictContains TAGS_TO_INTERCEPT x.sal_tag) with
        | none =>
          rw [generate_no_tag st n r a h1 h2 h3] at heq
          obtain ⟨hst, -⟩ := Prod.mk.injEq .. ▸ heq
          subst hst
          exact generate_no_tag st n r a h1 h2 h3
        | some t =>
          cases h4 : t.sal_tag_args with
          | none =>
            rw [generate_error st n r a t h1 h2 h3 h4] at heq
            obtain ⟨-, habs⟩ := Prod.mk.injEq .. ▸ heq
            exact absurd habs (by simp)
          | some s =>
            rw [generate_success st n r a t s h1 h2 h3 h4] at heq
            obtain ⟨hst, -⟩ := Prod.mk.injEq .. ▸ heq
            subst hst
            exact generate_dup _ n r a h1 (by
              rw [List.contains_cons]
              simp)

set_option maxRecDepth 8000 in
set_option maxHeartbeats 1000000 in
/-- Witness for claim C5: after the `WriteFile` interception succeeds,
re-submitting the identical `(name, raw_parameter_text)` pair leaves the
state untouched. -/
theorem interception_iff_conditions_witness :
    GenerateFunctionInterceptor
        (GenerateFunctionInterceptor stWF "WriteFile" "BOOL" wfArgs).1 "WriteFile" "BOOL" wfArgs =
      ((GenerateFunctionInterceptor stWF "WriteFile" "BOOL" wfArgs).1, none) := by
  apply (interception_iff_conditions stWF "WriteFile" "BOOL" wfArgs).2
  have h2 : (GenerateFunctionInterceptor stWF "WriteFile" "BOOL" wfArgs).2 = none := by decide
  exact congrArg (Prod.mk _) h2

/-- Claim C6: the post-call tag set is a subset of the pre-call tag set;
per token, a post-call check is scheduled only when the pre-call check
is, and it is the character-identical fragment; hence the post-call
check sequence is a subsequence of the pre-call one, and the loop's
accumulated strings are the concatenations of these per-token
fragments. -/
theorem postcall_checks_subsequence_of_precall :
    (TAGS_TO_CHECK_POSTCALL.all (fun s => TAGS_TO_CHECK_PRECALL.contains s) = true)
    ∧ (∀ t : ArgToken,
        postFrag t = if TAGS_TO_CHECK_POSTCALL.contains t.sal_tag then preFrag t else none)
    ∧ (∀ toks : List ArgToken, (toks.filterMap postFrag).Sublist (toks.filterMap preFrag))
    ∧ (∀ (toks : List ArgToken) (names pre post : String),
        (buildChecksLoop toks (names, pre, post)).2.1 = pre ++ strJoin (toks.filterMap preFrag) ∧
        (buildChecksLoop toks (names, pre, post)).2.2 = post ++ strJoin (toks.filterMap postFrag)) := by
  refine ⟨by decide, ?_, ?_, ?_⟩
  · intro t
    cases h2 : TAGS_TO_CHECK_POSTCALL.contains t.sal_tag with
    | false =>
      rw [if_neg (show ¬ (false = true) by simp)]
      cases hpre : TAGS_TO_CHECK_PRECALL.contains t.sal_tag with
      | false =>
        simp only [postFrag]
        rw [if_neg (by rw [hpre]; simp)]
      | true =>
        simp only [postFrag]
        rw [if_pos hpre, if_neg (by rw [h2]; simp)]
    | true =>
      have hpre : TAGS_TO_CHECK_PRECALL.contains t.sal_tag = true := by
        have h2' := h2
        rw [List.contains_eq_any_beq] at h2'
        show (TAGS_TO_CHECK_POSTCALL ++ ["_Inout_", "_Inout_opt_"]).contains t.sal_tag = true
        rw [List.contains_eq_any_beq, List.any_append, h2']
        rfl
      rw [if_pos (show (true = true) from rfl)]
      simp only [postFrag, preFrag]
      rw [if_pos hpre, if_pos hpre, if_pos h2]
  · intro toks
    apply filterMap_sublist_mono
    intro x y hxy
    cases hpre : TAGS_TO_CHECK_PRECALL.contains x.sal_tag with
    | false =>
      rw [postFrag, if_neg (by rw [hpre]; simp)] at hxy
      exact absurd hxy (by simp)
    | true =>
      cases hpost : TAGS_TO_CHECK_POSTCALL.contains x.sal_tag with
      | false =>
        rw [postFrag, if_pos hpre, if_neg (by rw [hpost]; simp)] at hxy
        exact absurd hxy (by simp)
      | true =>
        rw [postFrag, if_pos hpre, if_pos hpost] at hxy
        rw [preFrag, if_pos hpre]
        exact hxy
  · intro toks names pre post
    exact ⟨loop_pre_eq toks names pre post, loop_post_eq toks names pre post⟩

/-- Claim C9: the `_TAGS_TO_INTERCEPT` key set is disjoint from
`_TAGS_TO_CHECK_PRECALL`, so the token selected as the primary buffer
never also generates a `sizeof(*arg)` pre-call (hence also no post-call)
secondary check. -/
theorem primary_token_never_secondary_checked :
    (TAGS_TO_INTERCEPT.all (fun p => !(TAGS_TO_CHECK_PRECALL.contains p.1)) = true)
    ∧ ∀ (toks : List ArgToken) (t : ArgToken),
        toks.find? (fun x => dictContains TAGS_TO_INTERCEPT x.sal_tag) = some t →
        ∀ t' ∈ toks, TAGS_TO_CHECK_PRECALL.contains t'.sal_tag = true → t' ≠ t := by
  constructor
  · decide
  · intro toks t hfind t' _ hpre heq
    rw [heq] at hpre
    have hp : dictContains TAGS_TO_INTERCEPT t.sal_tag = true :=
      @List.find?_some _ (fun x => dictContains TAGS_TO_INTERCEPT x.sal_tag) t toks hfind
    rw [intercept_tag_not_precall _ hp] at hpre
    exact absurd hpre (by simp)

set_option maxRecDepth 8000 in
set_option maxHeartbeats 1000000 in
/-- Witness for claim C9, at the `WriteFile` token list: the
`lpOverlapped` token gets a pre-call check and differs from the primary
buffer token. -/
theorem primary_token_never_secondary_checked_witness :
    (⟨"_Inout_opt_", none, "LPOVERLAPPED", "lpOverlapped"⟩ : ArgToken) ≠
      ⟨"_In_reads_bytes_opt_", some "nNumberOfBytesToWrite", "LPCVOID", "lpBuffer"⟩ :=
  (primary_token_never_secondary_checked).2 (tokenize wfArgs)
    ⟨"_In_reads_bytes_opt_", some "nNumberOfBytesToWrite", "LPCVOID", "lpBuffer"⟩
    (by decide)
    ⟨"_Inout_opt_", none, "LPOVERLAPPED", "lpOverlapped"⟩
    (by decide) (by decide)

set_option maxRecDepth 8000 in
set_option maxHeartbeats 1000000 in
/-- Claim C1 (counterexample): in the end-to-end `WriteFile` scenario
the pre-call checks are *not* `lpNumberOfBytesWritten` (WRITE) followed
by `lpOverlapped` (WRITE): the tag `_Inout_opt_` does contain the
substring `In`, so the code renders the `lpOverlapped` check with READ
access (as the module docstring of the source also shows). -/
theorem writefile_lpOverlapped_precall_not_write :
    (buildChecksLoop (tokenize wfArgs) ("", "", "")).2.1 ≠
      param_checks_template "lpNumberOfBytesWritten" "WRITE" ++
        param_checks_template "lpOverlapped" "WRITE" := by
  decide

set_option maxRecDepth 8000 in
set_option maxHeartbeats 1000000 in
/-- Claim C1 (amended): for the end-to-end `WriteFile` declaration with
a filter mapping `WriteFile` to `kernel32.dll`, the generator produces:
primary buffer `lpBuffer` with access mode READ and size expression
`nNumberOfBytesToWrite` (used verbatim); pre-call checks for
`lpNumberOfBytesWritten` (WRITE) and `lpOverlapped` (READ, because
`_Inout_opt_` contains the substring `In`); a post-call check only for
`lpNumberOfBytesWritten`; the pass-through argument list
`hFile, lpBuffer, nNumberOfBytesToWrite, lpNumberOfBytesWritten,
lpOverlapped`; and a filter entry referencing `kernel32.dll`. -/
theorem writefile_end_to_end_generation :
    (tokenize wfArgs).find? (fun t => dictContains TAGS_TO_INTERCEPT t.sal_tag) =
      some ⟨"_In_reads_bytes_opt_", some "nNumberOfBytesToWrite", "LPCVOID", "lpBuffer"⟩
    ∧ dictGet TAGS_TO_INTERCEPT "_In_reads_bytes_opt_" = "READ"
    ∧ String.mk ((pySplit ',' "nNumberOfBytesToWrite".data).headD []) = "nNumberOfBytesToWrite"
    ∧ buildChecksLoop (tokenize wfArgs) ("", "", "") =
        ("hFile, lpBuffer, nNumberOfBytesToWrite, lpNumberOfBytesWritten, lpOverlapped",
          param_checks_template "lpNumberOfBytesWritten" "WRITE" ++
            param_checks_template "lpOverlapped" "READ",
          param_checks_template "lpNumberOfBytesWritten" "WRITE")
    ∧ (GenerateFunctionInterceptor stWF "WriteFile" "BOOL" wfArgs).2 = none
    ∧ (GenerateFunctionInterceptor stWF "WriteFile" "BOOL" wfArgs).1.instrumentationFilterFile =
        instrumentation_filter_entry_template "WriteFile" "kernel32.dll"
    ∧ (GenerateFunctionInterceptor stWF "WriteFile" "BOOL" wfArgs).1.defFile =
        "asan_WriteFile\n" := by
  decide

set_option maxRecDepth 8000 in
set_option maxHeartbeats 1000000 in
/-- Claim C2 (counterexample): an argument without a recognized SAL tag
shape is *not* included in the pass-through call argument list.  The
declaration `Foo(_In_reads_bytes_opt_(sz) LPCVOID buf, DWORD sz)`
yields an interceptor (the implementation output grows), yet the
rendered pass-through list is `buf`, not `buf, sz`: the untagged
argument `DWORD sz` is matched by no token and its name is dropped. -/
theorem untagged_argument_dropped_from_call :
    tokenize uArgs = [⟨"_In_reads_bytes_opt_", some "sz", "LPCVOID", "buf"⟩]
    ∧ (GenerateFunctionInterceptor stU "Foo" "BOOL" uArgs).2 = none
    ∧ (GenerateFunctionInterceptor stU "Foo" "BOOL" uArgs).1.implFile ≠ stU.implFile
    ∧ (buildChecksLoop (tokenize uArgs) ("", "", "")).1 = "buf"
    ∧ ("buf" : String) ≠ "buf, sz" := by
  decide

/-- Claim C2 (amended): the rendered pass-through call argument list is
exactly the `var_name` of every *tokenizer-matched* argument, in source
(match) order, joined with `", "`; arguments the tokenizer does not
match are omitted from the list, and every bounds check comes from a
matched token, so unmatched arguments are never bounds-checked. -/
theorem call_list_exactly_tokenized_names :
    ∀ a : String,
      (buildChecksLoop (tokenize a) ("", "", "")).1 =
        pyCommaJoin ((tokenize a).map (fun t => t.var_name))
      ∧ (buildChecksLoop (tokenize a) ("", "", "")).2.1 =
          strJoin ((tokenize a).filterMap preFrag)
      ∧ (buildChecksLoop (tokenize a) ("", "", "")).2.2 =
          strJoin ((tokenize a).filterMap postFrag) := by
  intro a
  refine ⟨loop_names_eq _ (tokenize_var_name_ne a) _ _, ?_, ?_⟩
  · rw [loop_pre_eq]
    exact String.empty_append _
  · rw [loop_post_eq]
    exact String.empty_append _

/-- Claim C7 (counterexample): trailing whitespace in a filter-table
field is significant.  The rows `Foo ,bar.dll` and `Foo,bar.dll`
differ only in trailing whitespace of the `function` field yet produce
different mapping entries (`"Foo "` versus `"Foo"`). -/
theorem csv_trailing_space_significant :
    loadFilter "function,module\nFoo ,bar.dll" = [("Foo ", "bar.dll")]
    ∧ loadFilter "function,module\nFoo,bar.dll" = [("Foo", "bar.dll")]
    ∧ (("Foo ", "bar.dll") : String × String) ≠ ("Foo", "bar.dll") := by
  decide

theorem csv_skip_replicate :
    ∀ (n : Nat) (rest acc : List Char),
      splitFieldsAux (List.replicate n ' ' ++ rest) acc true = splitFieldsAux rest acc true := by
  intro n
  induction n with
  | zero => intro rest acc; rfl
  | succ k ih =>
    intro rest acc
    rw [List.replicate_succ, List.cons_append]
    show splitFieldsAux (' ' :: (List.replicate k ' ' ++ rest)) acc true = _
    simp only [splitFieldsAux]
    rw [if_neg (by decide), if_pos (by decide)]
    exact ih rest acc

theorem csv_skip_after_comma :
    ∀ (f m : List Char) (n : Nat) (acc : List Char) (b : Bool), ',' ∉ f →
      splitFieldsAux (f ++ ',' :: (List.replicate n ' ' ++ m)) acc b =
        splitFieldsAux (f ++ ',' :: m) acc b := by
  intro f
  induction f with
  | nil =>
    intro m n acc b _
    simp only [List.nil_append, splitFieldsAux]
    rw [if_pos (by decide), if_pos (by decide)]
    rw [csv_skip_replicate]
  | cons c f ih =>
    intro m n acc b hmem
    have hc : c ≠ ',' := by
      intro e
      subst e
      exact hmem (List.mem_cons_self _ _)
    have hcb : (c == ',') = false := beq_eq_false_iff_ne.mpr hc
    have hmem2 : ',' ∉ f := fun hm => hmem (List.mem_cons_of_mem _ hm)
    simp only [List.cons_append, splitFieldsAux, hcb, Bool.false_eq_true, if_false]
    by_cases hsk : (b && c == ' ') = true
    · rw [if_pos hsk, if_pos hsk]
      exact ih m n acc true hmem2
    · rw [if_neg hsk, if_neg hsk]
      exact ih m n (c :: acc) false hmem2

/-- Claim C7 (amended): with `skipinitialspace=True` only *space*
characters at the start of a field — at the start of the row or
immediately after the comma delimiter — are insignificant when the
filter CSV is parsed; trailing whitespace is significant (see the
counterexample). -/
theorem csv_leading_spaces_insignificant :
    (∀ (n : Nat) (row : List Char),
      splitFields (List.replicate n ' ' ++ row) = splitFields row)
    ∧ (∀ (f m : List Char) (n : Nat), ',' ∉ f →
      splitFields (f ++ ',' :: (List.replicate n ' ' ++ m)) = splitFields (f ++ ',' :: m)) :=
  ⟨fun n row => csv_skip_replicate n row [],
   fun f m n h => csv_skip_after_comma f m n [] true h⟩

/-- Witness for the amended claim C7: three spaces after the delimiter
of the row `Foo,   bar.dll` are insignificant. -/
theorem csv_leading_spaces_insignificant_witness :
    splitFields ("Foo".data ++ ',' :: (List.replicate 3 ' ' ++ "bar.dll".data)) =
      splitFields ("Foo".data ++ ',' :: "bar.dll".data) :=
  (csv_leading_spaces_insignificant).2 "Foo".data "bar.dll".data 3 (by decide)

/-- Claim C8: if any of the three output files already exists and the
overwrite flag is not set, the run aborts before opening anything and
the file system — in particular every pre-existing output file — is
byte-unchanged; with the overwrite flag, each output file's final
content is exactly the freshly generated content (computed from the
original DEF-file and filter-CSV contents only), fully replacing, never
appending to, whatever was there before. -/
theorem output_files_overwrite_semantics :
    (∀ (fs : FS) (base dp fp : String) (decls : List (String × String × String)),
      (fsExists fs (base ++ "_impl.gen") || fsExists fs (base ++ "_instrumentation_filter.gen") ||
        fsExists fs (base ++ ".def.gen")) = true →
      runGenerator fs base dp fp false decls = fs)
    ∧ (∀ (fs : FS) (base dp fp : String) (decls : List (String × String × String)),
        dp ≠ base ++ "_impl.gen" → dp ≠ base ++ "_instrumentation_filter.gen" →
        dp ≠ base ++ ".def.gen" →
        fp ≠ base ++ "_impl.gen" → fp ≠ base ++ "_instrumentation_filter.gen" →
        fp ≠ base ++ ".def.gen" →
        fsRead (runGenerator fs base dp fp true decls) (base ++ "_impl.gen") =
          (processDecls (freshRunState fs dp fp) decls).1.implFile ∧
        fsRead (runGenerator fs base dp fp true decls) (base ++ "_instrumentation_filter.gen") =
          (processDecls (freshRunState fs dp fp) decls).1.instrumentationFilterFile ∧
        fsRead (runGenerator fs base dp fp true decls) (base ++ ".def.gen") =
          (processDecls (freshRunState fs dp fp) decls).1.defFile) := by
  constructor
  · intro fs base dp fp decls h
    simp [runGenerator, h]
  · intro fs base dp fp decls h1 h2 h3 h4 h5 h6
    obtain ⟨d12, d13, d23⟩ := output_paths_distinct base
    simp only [runGenerator, Bool.not_true, Bool.and_false, Bool.false_eq_true, if_false]
    set fs1 := fsWrite (fsWrite (fsWrite fs (base ++ "_impl.gen") "")
      (base ++ "_instrumentation_filter.gen") "") (base ++ ".def.gen") "" with hfs1
    have hdp : fsRead fs1 dp = fsRead fs dp := by
      rw [hfs1, fsRead_fsWrite_ne _ _ _ h3, fsRead_fsWrite_ne _ _ _ h2,
        fsRead_fsWrite_ne _ _ _ h1]
    have hfp : fsRead fs1 fp = fsRead fs fp := by
      rw [hfs1, fsRead_fsWrite_ne _ _ _ h6, fsRead_fsWrite_ne _ _ _ h5,
        fsRead_fsWrite_ne _ _ _ h4]
    rw [hdp, hfp]
    simp only [freshRunState]
    refine ⟨?_, ?_, ?_⟩
    · rw [fsRead_fsWrite_ne _ _ _ d13, fsRead_fsWrite_ne _ _ _ d12, fsRead_fsWrite_same]
    · rw [fsRead_fsWrite_ne _ _ _ d23, fsRead_fsWrite_same]
    · rw [fsRead_fsWrite_same]

/-- Witness for claim C8: an abort on a pre-existing output leaves the
file system unchanged, and an overwriting run's DEF output equals the
freshly generated content. -/
theorem output_files_overwrite_semantics_witness :
    runGenerator [("b_impl.gen", "OLD")] "b" "in.def" "f.csv" false [] = [("b_impl.gen", "OLD")]
    ∧ fsRead (runGenerator
          [("b_impl.gen", "OLD"), ("in.def", "EXPORTS\n"), ("f.csv", "function,module\n")]
          "b" "in.def" "f.csv" true []) ("b" ++ ".def.gen") =
        (processDecls (freshRunState
          [("b_impl.gen", "OLD"), ("in.def", "EXPORTS\n"), ("f.csv", "function,module\n")]
          "in.def" "f.csv") []).1.defFile :=
  ⟨(output_files_overwrite_semantics).1 _ "b" "in.def" "f.csv" [] (by decide),
   ((output_files_overwrite_semantics).2 _ "b" "in.def" "f.csv" []
      (by decide) (by decide) (by decide) (by decide) (by decide) (by decide)).2.2⟩

/-- Claim C10: de-duplication is keyed on the full
`(function_name, raw_parameter_text)` pair, not on the name alone: two
eligible declarations with the same name but different raw parameter
texts both succeed and emit two interceptor bodies, two filter entries,
and two identical export lines `asan_<name>`. -/
theorem dedup_keyed_on_full_pair :
    ∀ (st : GenState) (n r a1 a2 : String) (t1 t2 : ArgToken) (s1 s2 : String),
      dictContains st.filter n = true → a1 ≠ a2 →
      st.intercepted.contains (n, a1) = false →
      st.intercepted.contains (n, a2) = false →
      (tokenize a1).find? (fun x => dictContains TAGS_TO_INTERCEPT x.sal_tag) = some t1 →
      t1.sal_tag_args = some s1 →
      (tokenize a2).find? (fun x => dictContains TAGS_TO_INTERCEPT x.sal_tag) = some t2 →
      t2.sal_tag_args = some s2 →
      (GenerateFunctionInterceptor st n r a1).2 = none ∧
      (GenerateFunctionInterceptor (GenerateFunctionInterceptor st n r a1).1 n r a2).2 = none ∧
      (GenerateFunctionInterceptor (GenerateFunctionInterceptor st n r a1).1 n r a2).1.implFile =
        st.implFile ++
          interceptor_template r n a1 t1.var_name (String.mk ((pySplit ',' s1.data).headD []))
            (dictGet TAGS_TO_INTERCEPT t1.sal_tag)
            (buildChecksLoop (tokenize a1) ("", "", "")).1
            (buildChecksLoop (tokenize a1) ("", "", "")).2.1
            (buildChecksLoop (tokenize a1) ("", "", "")).2.2 ++
          interceptor_template r n a2 t2.var_name (String.mk ((pySplit ',' s2.data).headD []))
            (dictGet TAGS_TO_INTERCEPT t2.sal_tag)
            (buildChecksLoop (tokenize a2) ("", "", "")).1
            (buildChecksLoop (tokenize a2) ("", "", "")).2.1
            (buildChecksLoop (tokenize a2) ("", "", "")).2.2 ∧
      (GenerateFunctionInterceptor (GenerateFunctionInterceptor st n r a1).1 n r a2).1.instrumentationFilterFile =
        st.instrumentationFilterFile ++
          instrumentation_filter_entry_template n (dictGet st.filter n) ++
          instrumentation_filter_entry_template n (dictGet st.filter n) ∧
      (GenerateFunctionInterceptor (GenerateFunctionInterceptor st n r a1).1 n r a2).1.defFile =
        st.defFile ++ ("asan_" ++ n ++ "\n") ++ ("asan_" ++ n ++ "\n") := by
  intro st n r a1 a2 t1 t2 s1 s2 h1 hne h2a h2b h3a h4a h3b h4b
  have hpair : (((n, a2) : String × String) == (n, a1)) = false :=
    beq_eq_false_iff_ne.mpr (fun e => hne (congrArg Prod.snd e).symm)
  obtain ⟨f1, i1, m1, e1, d1, n1⟩ := generate_success_fields st n r a1 t1 s1 h1 h2a h3a h4a
  have h1' : dictContains (GenerateFunctionInterceptor st n r a1).1.filter n = true := by
    rw [f1]; exact h1
  have h2' : (GenerateFunctionInterceptor st n r a1).1.intercepted.contains (n, a2) = false := by
    rw [i1, List.contains_cons, hpair, h2b]
    decide
  obtain ⟨f2, i2, m2, e2, d2, n2⟩ :=
    generate_success_fields (GenerateFunctionInterceptor st n r a1).1 n r a2 t2 s2 h1' h2' h3b h4b
  refine ⟨n1, n2, ?_, ?_, ?_⟩
  · rw [m2, m1]
  · rw [e2, e1, f1]
  · rw [d2, d1]
    simp only [String.append_assoc]

set_option maxRecDepth 8000 in
set_option maxHeartbeats 1000000 in
/-- Witness for claim C10: the name `Foo` with two different raw
parameter texts yields two export lines. -/
theorem dedup_keyed_on_full_pair_witness :
    (GenerateFunctionInterceptor
        (GenerateFunctionInterceptor stU "Foo" "BOOL" uArgs).1 "Foo" "BOOL"
        "_Out_writes_bytes_opt_(len) LPVOID q").1.defFile =
      stU.defFile ++ ("asan_" ++ "Foo" ++ "\n") ++ ("asan_" ++ "Foo" ++ "\n") :=
  (dedup_keyed_on_full_pair stU "Foo" "BOOL" uArgs "_Out_writes_bytes_opt_(len) LPVOID q"
    ⟨"_In_reads_bytes_opt_", some "sz", "LPCVOID", "buf"⟩
    ⟨"_Out_writes_bytes_opt_", some "len", "LPVOID", "q"⟩ "sz" "len"
    (by decide) (by decide) (by decide) (by decide)
    (by decide) (by decide) (by decide) (by decide)).2.2.2.2

end AsanInterceptor
